import Mathlib

/-!
Verification of the Gaudi-tutorials TensorFlow notebooks
(`TensorFlow/Using HPU/hpu.ipynb` and
`TensorFlow/Mixed Precision/mixed_precision.ipynb`).

The notebooks are glue code over the TensorFlow/Keras API; the framework
behavior they exercise (dtype policies, layer dtype propagation, device
placement, `fit`/`evaluate`) is modelled shallowly below, following the
spec's description of the external interfaces and the notebooks' own
narration and captured console output.
-/

namespace Gaudi

/-- The floating-point dtypes that appear in the notebooks: the 32-bit
storage dtype and the 16-bit brain-float compute dtype. -/
inductive DType where
  | float32
  | bfloat16
deriving DecidableEq, Repr

/-- Modelled from the spec: a numeric-precision policy object exposing a
compute representation and a storage representation
(`tf.keras.mixed_precision.Policy`). -/
structure Policy where
  name : String
  compute_dtype : DType
  variable_dtype : DType
deriving DecidableEq, Repr

/-- Modelled from the spec: constructing a `mixed_precision.Policy` from a
policy-name string. `mixed_bfloat16` uses bfloat16 computations and float32
variables; the single-dtype policies use the named dtype for both; any other
string is rejected by the framework. -/
def Policy.ofString : String → Option Policy
  | "mixed_bfloat16" => some ⟨"mixed_bfloat16", DType.bfloat16, DType.float32⟩
  | "float32" => some ⟨"float32", DType.float32, DType.float32⟩
  | "bfloat16" => some ⟨"bfloat16", DType.bfloat16, DType.bfloat16⟩
  | _ => none

/-- The argument accepted by `set_global_policy`: either a policy-name string
or an already-constructed `Policy` object. -/
inductive PolicyArg where
  | fromString (s : String)
  | fromPolicy (p : Policy)

/-- Modelled from the spec: `mixed_precision.set_global_policy` installs a
global dtype policy; a string argument is first converted to a `Policy`.
The result is the new global policy (none when the string is invalid). -/
def set_global_policy : PolicyArg → Option Policy
  | PolicyArg.fromString s => Policy.ofString s
  | PolicyArg.fromPolicy p => some p

/-- Modelled from the spec: the dtype policy a layer is created with.
Each layer uses the global policy by default; passing a `dtype` argument
overrides it, and layers always convert the dtype argument to a policy. -/
def layerPolicy (globalPolicy : Policy) (dtypeArg : Option String) : Option Policy :=
  match dtypeArg with
  | none => some globalPolicy
  | some s => Policy.ofString s

/-- The activation functions used by the notebooks. -/
inductive Activation where
  | linear
  | relu
  | softmax
deriving DecidableEq, Repr

/-- A tensor: a dtype plus the (exact, rational) numbers it carries. The
numeric rounding of a genuine precision change is outside this model; the
values field denotes the abstract numbers the tensor represents. -/
structure Tensor where
  dtype : DType
  values : List (List ℚ)
deriving DecidableEq, Repr

/-- Modelled from the spec: casting a tensor to a dtype. A cast to the
tensor's own dtype is the identity (a no-op); otherwise only the dtype tag
changes, since precision loss is not modelled. -/
def castTensor (d : DType) (t : Tensor) : Tensor :=
  if t.dtype = d then t else ⟨d, t.values⟩

theorem castTensor_dtype (d : DType) (t : Tensor) : (castTensor d t).dtype = d := by
  unfold castTensor
  by_cases h : t.dtype = d
  · simp [h]
  · simp [h]

/-- A Keras `Dense` layer as created in the mixed-precision notebook:
its unit count, activation, name, and the dtype policy it carries. -/
structure Dense where
  units : ℕ
  activation : Activation
  name : String
  policy : Policy
deriving DecidableEq, Repr

/-- Modelled from the spec: creating a `layers.Dense` while `globalPolicy` is
the global dtype policy, with an optional `dtype` argument. -/
def mkDense (globalPolicy : Policy) (dtypeArg : Option String) (units : ℕ)
    (activation : Activation) (name : String) : Option Dense :=
  (layerPolicy globalPolicy dtypeArg).map fun p => ⟨units, activation, name, p⟩

/-- Modelled from the spec: a `Dense` layer's kernel variable is stored in the
policy's variable dtype. -/
def Dense.kernelDtype (l : Dense) : DType := l.policy.variable_dtype

/-- Modelled from the spec: layers cast their floating-point inputs to the
policy's compute dtype and compute in it, so their output tensors carry the
compute dtype. -/
def Dense.outputDtype (l : Dense) : DType := l.policy.compute_dtype

/-- A Keras `Activation` layer: its activation function, name, and policy. -/
structure ActivationLayer where
  activation : Activation
  name : String
  policy : Policy
deriving DecidableEq, Repr

/-- Modelled from the spec: creating a `layers.Activation` while
`globalPolicy` is the global dtype policy, with an optional `dtype`
argument. -/
def mkActivationLayer (globalPolicy : Policy) (activation : Activation)
    (dtypeArg : Option String) (name : String) : Option ActivationLayer :=
  (layerPolicy globalPolicy dtypeArg).map fun p => ⟨activation, name, p⟩

/-- Modelled from the spec: an `Activation` layer computes in its policy's
compute dtype, so its output tensor carries the compute dtype. -/
def ActivationLayer.outputDtype (l : ActivationLayer) : DType := l.policy.compute_dtype

/-- The elementwise value semantics of the activations where they are exact:
`linear` is the identity and `relu` clamps below at zero; `softmax` needs
real exponentials and its values are not modelled (only its dtype is). -/
def activationValues : Activation → List (List ℚ) → Option (List (List ℚ))
  | Activation.linear, v => some v
  | Activation.relu, v => some (v.map (List.map (fun q => max 0 q)))
  | Activation.softmax, _ => none

/-- Modelled from the spec: applying an `Activation` layer to a tensor casts
the input to the layer's compute dtype and applies the activation
elementwise; the output carries the compute dtype. -/
def ActivationLayer.apply (l : ActivationLayer) (t : Tensor) : Option Tensor :=
  let t2 := castTensor l.policy.compute_dtype t
  (activationValues l.activation t2.values).map fun v => ⟨l.policy.compute_dtype, v⟩

/-- The `mixed_bfloat16` global policy both notebook cells install. -/
def mixedPolicy : Policy := ⟨"mixed_bfloat16", DType.bfloat16, DType.float32⟩

/-- A compute device as the HPU notebook identifies them: the machine's CPU
or one of its visible HPUs, by index. -/
inductive Device where
  | CPU (i : ℕ)
  | HPU (i : ℕ)
deriving DecidableEq, Repr

/-- Modelled from the spec: the runtime's automatic op placement. An op
carrying an explicit device constraint (from an enclosing `tf.device` scope)
is placed on that device; an unconstrained op is placed on `HPU:0` when an
HPU is visible, because the HPU device is prioritized for ops that have an
HPU implementation, and on the CPU otherwise. -/
def place (hpuVisible : Bool) (constraint : Option Device) : Device :=
  match constraint with
  | some d => d
  | none => if hpuVisible then Device.HPU 0 else Device.CPU 0

/-- An op of the manual-placement demo: its name and whether it was created
inside the `tf.device` scope. -/
structure DemoOp where
  name : String
  insideScope : Bool
deriving DecidableEq, Repr

/-- Modelled from the spec: a scoped device-placement context constrains
exactly the ops created inside it; an op created outside the scope carries
no constraint from it. -/
def scopeConstraint (scopeDev : Device) (op : DemoOp) : Option Device :=
  if op.insideScope then some scopeDev else none

/-- Where an op of the manual-placement demo ends up: the placer applied to
the constraint the scope gives the op. -/
def demoPlacement (hpuVisible : Bool) (scopeDev : Device) (op : DemoOp) : Device :=
  place hpuVisible (scopeConstraint scopeDev op)

/-- The ops of the second matmul demo in `hpu.ipynb`: the constants `a` and
`b` created inside `with tf.device` and the `MatMul` created outside it. -/
def opA : DemoOp := ⟨"a", true⟩

def opB : DemoOp := ⟨"b", true⟩

def opMatMul : DemoOp := ⟨"MatMul", false⟩

/-- Dot product of two rows of rationals. -/
def dotProd (xs ys : List ℚ) : ℚ := (List.zipWith (fun x y => x * y) xs ys).sum

/-- Column `j` of a row-major matrix (entries beyond a row's length read as
zero). -/
def matCol (b : List (List ℚ)) (j : ℕ) : List ℚ :=
  b.map fun row => row.getD j 0

/-- Modelled from the spec: the mathematical function of `tf.matmul` on the
row-major value lists of its operands: entry `(i, j)` of the product is the
dot product of row `i` of `a` with column `j` of `b`. -/
def matmulValues (a b : List (List ℚ)) : List (List ℚ) :=
  a.map fun row => (List.range (b.headD []).length).map fun j => dotProd row (matCol b j)

/-- `tf.matmul` on tensors: multiplies the values; the product keeps the
operands' floating dtype. -/
def tf_matmul (a b : Tensor) : Tensor := ⟨a.dtype, matmulValues a.values b.values⟩

/-- Modelled from the spec: executing the matmul on operands that have been
placed on devices computes the op's mathematical function; the runtime
copies tensors between devices if required, so the assigned devices do not
change the value. -/
def matmulPlaced (a b : Tensor × Device) : Tensor := tf_matmul a.1 b.1

/-- The constant tensor `a = [[1.0, 2.0, 3.0], [4.0, 5.0, 6.0]]`. -/
def tensorA : Tensor := ⟨DType.float32, [[1, 2, 3], [4, 5, 6]]⟩

/-- The constant tensor `b = [[1.0, 2.0], [3.0, 4.0], [5.0, 6.0]]`. -/
def tensorB : Tensor := ⟨DType.float32, [[1, 2], [3, 4], [5, 6]]⟩

/-- A physical device record as returned by the framework's device
enumeration: a name and a device type string such as `"CPU"` or `"HPU"`. -/
structure PhysicalDevice where
  name : String
  device_type : String
deriving DecidableEq, Repr

/-- Modelled from the spec: `tf.config.list_physical_devices(ty)` filters the
machine's physical-device list down to the devices of the given type. -/
def list_physical_devices (devs : List PhysicalDevice) (ty : String) : List PhysicalDevice :=
  devs.filter fun d => d.device_type == ty

/-- The count the HPU notebook prints:
`len(tf.config.list_physical_devices('HPU'))`. -/
def numHPUsAvailable (devs : List PhysicalDevice) : ℕ :=
  (list_physical_devices devs "HPU").length

/-- The physical devices of the notebook's captured run: the machine CPU and
one visible HPU. -/
def capturedDevices : List PhysicalDevice :=
  [⟨"/physical_device:CPU:0", "CPU"⟩, ⟨"/physical_device:HPU:0", "HPU"⟩]

/-- Modelled from the spec: `device_lib.list_local_devices()` enumerates all
local devices including the machine's CPU, so its result always contains a
CPU entry ahead of whatever accelerators are present. -/
def list_local_devices (accelerators : List PhysicalDevice) : List PhysicalDevice :=
  ⟨"/device:CPU:0", "CPU"⟩ :: accelerators

/-- The configuration the notebook passes to `model.fit`: batch size,
epoch count, and validation split. -/
structure FitConfig where
  batch_size : ℕ
  epochs : ℕ
  validation_split : ℚ
deriving DecidableEq, Repr

/-- Modelled from the spec: `fit` with a validation split reserves the
trailing fraction of the samples for validation and trains on the leading
`n * (1 - validation_split)` samples. -/
def splitTrainCount (n : ℕ) (split : ℚ) : ℕ :=
  (⌊(n : ℚ) * (1 - split)⌋).toNat

/-- The samples reserved for validation: the rest of the training set. -/
def splitValCount (n : ℕ) (split : ℚ) : ℕ := n - splitTrainCount n split

/-- Modelled from the spec: each epoch of `fit` trains on the training part
and validates on the validation part, so a run produces one
(train count, validation count) pair per epoch. -/
def fitEpochCounts (n : ℕ) (cfg : FitConfig) : List (ℕ × ℕ) :=
  List.replicate cfg.epochs
    (splitTrainCount n cfg.validation_split, splitValCount n cfg.validation_split)

/-- The training-set size fixed by `x_train.reshape(60000, 784)`. -/
def mnistTrainSamples : ℕ := 60000

/-- The test-set size fixed by `x_test.reshape(10000, 784)`. -/
def mnistTestSamples : ℕ := 10000

/-- The fit configuration of the notebook:
`batch_size=8192, epochs=5, validation_split=0.2`. -/
def fitCfg : FitConfig := ⟨8192, 5, 1 / 5⟩

/-- `model.evaluate(x_test, y_test)` runs on the whole test set. -/
def evaluateSampleCount : ℕ := mnistTestSamples

/-- The model-size branch of the mixed-precision notebook: a non-empty
device list is truthy, selecting 256 units; an empty one selects 64. -/
def num_units (localDevices : List PhysicalDevice) : ℕ :=
  if localDevices.isEmpty then 64 else 256

/-- The message the model-size branch prints, by the same truthiness test. -/
def modelSizeMessage (localDevices : List PhysicalDevice) : String :=
  if localDevices.isEmpty then "The model will run with 64 units on a CPU"
  else "The model will run with 256 units on a HPU"

end Gaudi

namespace Gaudi

/-- C2: a dtype policy constructed from the string `mixed_bfloat16` exposes
a bfloat16 compute representation and a float32 storage representation. -/
theorem C2_mixed_bfloat16_policy_dtypes :
    Policy.ofString "mixed_bfloat16" = some mixedPolicy ∧
    mixedPolicy.compute_dtype = DType.bfloat16 ∧
    mixedPolicy.variable_dtype = DType.float32 := by
  refine ⟨rfl, rfl, rfl⟩

/-- C1: under the global `mixed_bfloat16` policy, the corrected model's final
`Activation('softmax', dtype='float32')` layer has the float32 policy, so it
computes in float32 and its output tensor has dtype float32, even though the
global compute dtype is bfloat16; the INCORRECT variant
`Dense(10, activation='softmax')` created without a dtype argument outputs a
bfloat16 tensor. -/
theorem C1_final_softmax_float32 :
    (mkActivationLayer mixedPolicy Activation.softmax (some "float32")
        "predictions").map ActivationLayer.outputDtype = some DType.float32 ∧
    (mkActivationLayer mixedPolicy Activation.softmax (some "float32")
        "predictions").map (fun l => l.policy.compute_dtype) = some DType.float32 ∧
    mixedPolicy.compute_dtype = DType.bfloat16 ∧
    (mkDense mixedPolicy none 10 Activation.softmax
        "predictions").map Dense.outputDtype = some DType.bfloat16 := by
  refine ⟨rfl, rfl, rfl, rfl⟩

/-- C9: installing the global policy by first constructing a `Policy` from
the string `mixed_bfloat16` and passing it to `set_global_policy` leaves the
global policy in exactly the same state as passing the string directly;
in particular the resulting compute and variable dtypes agree. -/
theorem C9_policy_object_vs_string (p : Policy)
    (h : Policy.ofString "mixed_bfloat16" = some p) :
    set_global_policy (PolicyArg.fromPolicy p) =
      set_global_policy (PolicyArg.fromString "mixed_bfloat16") := by
  simp [set_global_policy, h]

/-- C9 witness: at the concretely constructed `mixed_bfloat16` policy. -/
theorem C9_policy_object_vs_string_witness :
    set_global_policy (PolicyArg.fromPolicy mixedPolicy) =
      set_global_policy (PolicyArg.fromString "mixed_bfloat16") :=
  C9_policy_object_vs_string mixedPolicy rfl

/-- C3: in both matmul demonstrations of the HPU notebook the product of
`a = [[1,2,3],[4,5,6]]` and `b = [[1,2],[3,4],[5,6]]` is the 2x2 tensor
`[[22,28],[49,64]]`, and the result is the same whether the operands are
placed by the automatic placer or explicitly on `CPU:0`. -/
theorem C3_matmul_result :
    tf_matmul tensorA tensorB = ⟨DType.float32, [[22, 28], [49, 64]]⟩ ∧
    matmulPlaced (tensorA, place true none) (tensorB, place true none) =
      ⟨DType.float32, [[22, 28], [49, 64]]⟩ ∧
    matmulPlaced (tensorA, Device.CPU 0) (tensorB, Device.CPU 0) =
      ⟨DType.float32, [[22, 28], [49, 64]]⟩ := by
  refine ⟨?_, ?_, ?_⟩ <;>
    · simp [matmulPlaced, tf_matmul, matmulValues, tensorA, tensorB, dotProd, matCol,
        List.range_succ]
      norm_num

/-- C5: the `tf.device('/CPU:0')` scope constrains only the ops created
inside it. The constants `a` and `b` created inside the scope are placed on
`CPU:0`; the matmul created outside it is placed by automatic placement
(`HPU:0` when an HPU is visible), and for any op created outside the scope
the placement does not depend on the scope's device at all. -/
theorem C5_device_scope_constrains_only_inside :
    demoPlacement true (Device.CPU 0) opA = Device.CPU 0 ∧
    demoPlacement true (Device.CPU 0) opB = Device.CPU 0 ∧
    demoPlacement true (Device.CPU 0) opMatMul = Device.HPU 0 ∧
    ∀ op : DemoOp, op.insideScope = false →
      ∀ sd : Device, demoPlacement true sd op = place true none := by
  refine ⟨rfl, rfl, rfl, ?_⟩
  intro op h sd
  simp [demoPlacement, scopeConstraint, h]

/-- C5 witness: the matmul op, created outside the scope, is placed the same
under a scope on `HPU:7` as with no constraint at all. -/
theorem C5_device_scope_constrains_only_inside_witness :
    demoPlacement true (Device.HPU 7) opMatMul = place true none :=
  C5_device_scope_constrains_only_inside.2.2.2 opMatMul rfl (Device.HPU 7)

/-- C7: the HPU notebook's device count is the length of the physical-device
list filtered to type `HPU`; for every configuration it equals the number of
visible HPU devices, it is `0` (not an error) when no HPU is visible, and it
is `1` in the captured run. -/
theorem C7_num_hpus_counts_hpu_devices :
    (∀ devs : List PhysicalDevice,
        numHPUsAvailable devs = devs.countP (fun d => d.device_type == "HPU")) ∧
    numHPUsAvailable [] = 0 ∧
    numHPUsAvailable capturedDevices = 1 := by
  refine ⟨?_, rfl, by decide⟩
  intro devs
  simp [numHPUsAvailable, list_physical_devices, List.countP_eq_length_filter]

/-- C8: the model-size branch selects 64 units exactly when
`device_lib.list_local_devices()` is empty; since that enumeration always
contains the machine CPU, on every machine with at least one local device
the branch selects 256 units and prints the HPU message, regardless of
whether an HPU is present. -/
theorem C8_num_units_branch :
    (∀ devs : List PhysicalDevice, num_units devs = 64 ↔ devs = []) ∧
    ∀ accelerators : List PhysicalDevice,
      num_units (list_local_devices accelerators) = 256 ∧
      modelSizeMessage (list_local_devices accelerators) =
        "The model will run with 256 units on a HPU" := by
  constructor
  · intro devs
    constructor
    · intro h
      cases devs with
      | nil => rfl
      | cons d ds => simp [num_units] at h
    · intro h
      subst h
      rfl
  · intro accelerators
    exact ⟨rfl, rfl⟩

/-- C8 witness: on a machine whose only local device is the CPU, the branch
still selects 256 units, and the empty enumeration selects 64. -/
theorem C8_num_units_branch_witness :
    num_units (list_local_devices []) = 256 ∧ num_units [] = 64 :=
  ⟨(C8_num_units_branch.2 []).1, (C8_num_units_branch.1 []).mpr rfl⟩

/-- C4: once the global policy is `mixed_bfloat16`, every layer created
without an explicit dtype argument carries that policy: its output tensor
has dtype bfloat16, its kernel variable keeps dtype float32, and casting a
floating-point input to the layer's compute dtype yields a bfloat16
tensor. -/
theorem C4_layers_inherit_global_policy (g : Policy)
    (h : set_global_policy (PolicyArg.fromString "mixed_bfloat16") = some g) :
    ∀ (units : ℕ) (act : Activation) (nm : String),
      (mkDense g none units act nm).map Dense.outputDtype = some DType.bfloat16 ∧
      (mkDense g none units act nm).map Dense.kernelDtype = some DType.float32 ∧
      ∀ t : Tensor, (castTensor g.compute_dtype t).dtype = DType.bfloat16 := by
  have hg : g = mixedPolicy := by
    simp [set_global_policy, Policy.ofString] at h
    exact h.symm
  subst hg
  intro units act nm
  exact ⟨rfl, rfl, fun t => castTensor_dtype _ t⟩

/-- C4 witness: `dense_1` (256 relu units, no dtype argument) outputs
bfloat16 with a float32 kernel, and the model input cast to the compute
dtype is bfloat16. -/
theorem C4_layers_inherit_global_policy_witness :
    (mkDense mixedPolicy none 256 Activation.relu "dense_1").map Dense.outputDtype
        = some DType.bfloat16 ∧
    (mkDense mixedPolicy none 256 Activation.relu "dense_1").map Dense.kernelDtype
        = some DType.float32 ∧
    (castTensor mixedPolicy.compute_dtype tensorA).dtype = DType.bfloat16 := by
  obtain ⟨h1, h2, h3⟩ :=
    C4_layers_inherit_global_policy mixedPolicy rfl 256 Activation.relu "dense_1"
  exact ⟨h1, h2, h3 tensorA⟩

/-- C6: fitting on the 60000-sample training set with `batch_size=8192`,
`epochs=5`, `validation_split=0.2` trains on exactly
`(1 - 0.2) * 60000 = 48000` samples and validates on exactly 12000 in each
of the 5 epochs, and evaluate then runs on the 10000-sample test set. -/
theorem C6_fit_validation_split :
    fitEpochCounts mnistTrainSamples fitCfg = List.replicate 5 (48000, 12000) ∧
    (fitEpochCounts mnistTrainSamples fitCfg).length = 5 ∧
    splitTrainCount mnistTrainSamples fitCfg.validation_split = 48000 ∧
    splitValCount mnistTrainSamples fitCfg.validation_split = 12000 ∧
    ((mnistTrainSamples : ℚ) * (1 - fitCfg.validation_split) = 48000) ∧
    evaluateSampleCount = 10000 := by
  have harith : (mnistTrainSamples : ℚ) * (1 - fitCfg.validation_split) = 48000 := by
    norm_num [mnistTrainSamples, fitCfg]
  have htrain : splitTrainCount mnistTrainSamples fitCfg.validation_split = 48000 := by
    unfold splitTrainCount
    rw [harith]
    norm_num
    rfl
  have hval : splitValCount mnistTrainSamples fitCfg.validation_split = 12000 := by
    unfold splitValCount
    rw [htrain]
    rfl
  have hlist : fitEpochCounts mnistTrainSamples fitCfg = List.replicate 5 (48000, 12000) := by
    unfold fitEpochCounts
    rw [htrain, hval]
    rfl
  exact ⟨hlist, by rw [hlist]; rfl, htrain, hval, harith, rfl⟩

/-- C10: applying `Activation('linear', dtype='float32')` to a tensor that
is already float32 is the identity: the result has the same dtype and the
same values as its input, so the final cast is a no-op there. -/
theorem C10_linear_float32_cast_noop (t : Tensor) (h : t.dtype = DType.float32) :
    (mkActivationLayer mixedPolicy Activation.linear (some "float32") "").bind
      (fun l => l.apply t) = some t := by
  cases t with
  | mk d v =>
    simp at h
    subst h
    simp [mkActivationLayer, layerPolicy, Policy.ofString, ActivationLayer.apply,
      castTensor, activationValues]

/-- C10 witness: the cast layer applied to the float32 tensor `a` returns
it unchanged. -/
theorem C10_linear_float32_cast_noop_witness :
    (mkActivationLayer mixedPolicy Activation.linear (some "float32") "").bind
      (fun l => l.apply tensorA) = some tensorA :=
  C10_linear_float32_cast_noop tensorA rfl

end Gaudi
